import Mathlib

/-!
Verification of the scene-graph core of libobs (src/libobs/obs-scene.c).

Two levels of embedding are used:

* A pointer-level model (`Node`, `PScene`) of the doubly-linked item list,
  faithful to the field-by-field pointer manipulation of `detach_sceneitem`,
  `attach_sceneitem` and `obs_sceneitem_setorder`.  `Option PScene` is the
  result type: `none` models a failed `assert` or a NULL dereference.
* A list-level model (`SItem`, `Scene`) of the remaining operations
  (`obs_scene_add`, `obs_sceneitem_remove`, `scene_video_render`,
  `scene_save`, `scene_load`, the transform accessors, and the item
  reference counter), which treat the linked list as a well-formed sequence.

Machine floats of the C code are modelled by `Int` coordinates: every
operation under study copies or negates them, never rounds.
-/

/-- A 2-vector, as `struct vec2` restricted to the operations the scene code
performs on it (copy and componentwise negation). -/
structure Vec2 where
  x : Int
  y : Int
  deriving DecidableEq, Repr

/-! ## Pointer-level model of the item list

`Node` is the linkage part of `struct obs_scene_item`: the `prev` and `next`
pointers and the `parent` scene pointer.  There is a single scene in the
model, so `parent` is `true` when `item->parent` points at it and `false`
when `item->parent == NULL`.  Items are addressed by natural-number ids; the
heap is an association list from id to node. -/
structure Node where
  prev   : Option Nat
  next   : Option Nat
  parent : Bool
  deriving DecidableEq, Repr

/-- The scene part that the ordering engine touches: `first_item` and the
heap of item nodes. -/
structure PScene where
  first_item : Option Nat
  heap : List (Nat × Node)
  deriving DecidableEq, Repr

/-- Read a node from the heap (dereference an item pointer). -/
def getNode (s : PScene) (i : Nat) : Option Node :=
  List.lookup i s.heap

/-- Write a node back to the heap (mutate the pointed-to item). -/
def setNode (s : PScene) (i : Nat) (n : Node) : PScene :=
  { s with heap := s.heap.map (fun e => if e.1 = i then (i, n) else e) }

/-- `detach_sceneitem` (obs-scene.c:124-135): unlink the item from its
neighbours, moving the scene head pointer if the item was first, and clear
`item->parent`.  The branch for a first item dereferences `item->parent`,
so a NULL parent there is a crash (`none`). -/
def detach_sceneitem (s : PScene) (i : Nat) : Option PScene :=
  match getNode s i with
  | none => none
  | some it =>
    let s1 :=
      match it.prev with
      | some p =>
        match getNode s p with
        | none => none
        | some pn => some (setNode s p { pn with next := it.next })
      | none =>
        if it.parent then some { s with first_item := it.next } else none
    match s1 with
    | none => none
    | some s1 =>
      let s2 :=
        match it.next with
        | some nx =>
          match getNode s1 nx with
          | none => none
          | some nn => some (setNode s1 nx { nn with prev := it.prev })
        | none => some s1
      match s2 with
      | none => none
      | some s2 =>
        match getNode s2 i with
        | none => none
        | some it2 => some (setNode s2 i { it2 with parent := false })

/-- `attach_sceneitem` (obs-scene.c:137-153): splice the item in after
`prevArg`; with an empty `prevArg` it asserts `item->parent != NULL` and
inserts the item at the head of `item->parent`.  A `false` parent on that
branch is the failed assert / NULL dereference (`none`). -/
def attach_sceneitem (s : PScene) (i : Nat) (prevArg : Option Nat) : Option PScene :=
  match getNode s i with
  | none => none
  | some it =>
    let s1 := setNode s i { it with prev := prevArg }
    match prevArg with
    | some p =>
      match getNode s1 p with
      | none => none
      | some pn =>
        match getNode s1 i with
        | none => none
        | some it1 =>
          let s2 := setNode s1 i { it1 with next := pn.next }
          let s3 :=
            match pn.next with
            | some q =>
              match getNode s2 q with
              | none => none
              | some qn => some (setNode s2 q { qn with prev := some i })
            | none => some s2
          match s3 with
          | none => none
          | some s3 =>
            match getNode s3 p with
            | none => none
            | some pn2 => some (setNode s3 p { pn2 with next := some i })
    | none =>
      match getNode s1 i with
      | none => none
      | some it1 =>
        if it1.parent then
          let s2 := setNode s1 i { it1 with next := s1.first_item }
          some { s2 with first_item := some i }
        else none

/-- The four movements of `enum order_movement`. -/
inductive OrderMovement where
  | up
  | down
  | top
  | bottom
  deriving DecidableEq, Repr

/-- Walk `while (last->next) last = last->next;` with explicit fuel (the C
loop terminates on every acyclic list; the fuel used below always exceeds
the heap size). -/
def walkToLast (s : PScene) : Nat → Nat → Option Nat
  | 0, _ => none
  | fuel + 1, j =>
    match getNode s j with
    | none => none
    | some n =>
      match n.next with
      | none => some j
      | some k => walkToLast s fuel k

/-- `obs_sceneitem_setorder` (obs-scene.c:519-553): lock the parent scene
(a NULL parent crashes in `pthread_mutex_lock`), detach the item, then
re-attach according to the movement, using the stale `prev`/`next` fields
of the detached node. -/
def obs_sceneitem_setorder (s : PScene) (i : Nat) (m : OrderMovement) : Option PScene :=
  match getNode s i with
  | none => none
  | some it0 =>
    if it0.parent = false then none
    else
      match detach_sceneitem s i with
      | none => none
      | some s1 =>
        match getNode s1 i with
        | none => none
        | some it =>
          match m with
          | OrderMovement.up => attach_sceneitem s1 i it.prev
          | OrderMovement.down => attach_sceneitem s1 i it.next
          | OrderMovement.top =>
            match it.next with
            | none => attach_sceneitem s1 i it.prev
            | some n =>
              match walkToLast s1 (s1.heap.length + 1) n with
              | none => none
              | some lastId => attach_sceneitem s1 i (some lastId)
          | OrderMovement.bottom => attach_sceneitem s1 i none

/-- Read the list order off a pointer-level scene by chasing `next` from
`first_item`, with fuel. -/
def chainFrom (s : PScene) : Nat → Option Nat → List Nat
  | 0, _ => []
  | _ + 1, none => []
  | fuel + 1, some i =>
    match getNode s i with
    | none => []
    | some n => i :: chainFrom s fuel n.next

/-- The paint order of a pointer-level scene. -/
def sceneOrder (s : PScene) : List Nat :=
  chainFrom s (s.heap.length + 1) s.first_item

/-- A well-formed two-item scene: 0 at the head, 1 at the tail. -/
def twoScene : PScene :=
  { first_item := some 0,
    heap := [(0, { prev := none, next := some 1, parent := true }),
             (1, { prev := some 0, next := none, parent := true })] }

/-- A well-formed three-item scene 0, 1, 2 in paint order. -/
def threeScene : PScene :=
  { first_item := some 0,
    heap := [(0, { prev := none, next := some 1, parent := true }),
             (1, { prev := some 0, next := some 2, parent := true }),
             (2, { prev := some 1, next := none, parent := true })] }

/-- C1: the claim says setorder at a list extreme attaches the item at the
current boundary and never crashes, the non-empty-parent requirement of
attach being met on every path.  In fact `detach_sceneitem` clears the
parent pointer, so moving the head item up or the tail item down reaches
`attach_sceneitem(item, NULL)` with a NULL parent: the assert in attach
fails (a NULL dereference without assertions) and the operation does not
complete.  The third conjunct exhibits the cleared parent after detach. -/
theorem setorder_extreme_crashes :
    obs_sceneitem_setorder twoScene 0 OrderMovement.up = none ∧
    obs_sceneitem_setorder twoScene 1 OrderMovement.down = none ∧
    (detach_sceneitem twoScene 0).bind (fun s => getNode s 0) =
      some { prev := none, next := some 1, parent := false } := by
  decide

/-- C2: the claim says moving a non-head item up re-attaches it after the
former predecessor of its predecessor, one slot closer to the head.  The
code instead passes the stale `item->prev` — the former predecessor itself,
whose `next` field detach already patched past the item — so the order is
unchanged: moving item 1 of the scene 0,1,2 up yields 0,1,2 again, not
1,0,2 (and the parent pointer of the moved item stays NULL). -/
theorem setorder_up_does_not_move :
    (obs_sceneitem_setorder threeScene 1 OrderMovement.up).map sceneOrder =
      some [0, 1, 2] ∧
    (obs_sceneitem_setorder threeScene 1 OrderMovement.up).bind
        (fun s => (getNode s 1).map Node.parent) = some false := by
  decide

/-- C3: the claim says all four movements preserve the item count and that
bottom moves the item to the head.  In fact bottom always calls
`attach_sceneitem(item, NULL)` after detach cleared `item->parent`, so the
assert fails and the item is never re-attached; top does succeed on a
multi-item scene and moves the item to the tail. -/
theorem setorder_bottom_crashes :
    obs_sceneitem_setorder threeScene 1 OrderMovement.bottom = none ∧
    (obs_sceneitem_setorder threeScene 0 OrderMovement.top).map sceneOrder =
      some [1, 2, 0] := by
  decide

/-! ## List-level model of the scene

`SItem` carries the full state of `struct obs_scene_item` that the
remaining operations read or write: the source (identified by the
natural number that is also its registry name), the transform, and the
`visible`, `removed`, `parent` and `ref` fields.  `bzalloc` zero-fills
the struct; `obs_scene_add` then sets source, visible, parent, ref and
scale, giving `newSceneItem`. -/
structure SItem where
  sid     : Nat
  pos     : Vec2
  origin  : Vec2
  scale   : Vec2
  rot     : Int
  visible : Bool
  removed : Bool
  parent  : Bool
  ref     : Int
  deriving DecidableEq, Repr

/-- A scene, at the list level: the ordered item list (paint order). -/
structure Scene where
  items : List SItem
  deriving DecidableEq, Repr

/-- The item built by `obs_scene_add` (obs-scene.c:395-400): zero-filled,
then `source`, `visible = true`, `parent`, `ref = 1`, `scale = (1,1)`. -/
def newSceneItem (src : Nat) : SItem :=
  { sid := src, pos := { x := 0, y := 0 }, origin := { x := 0, y := 0 },
    scale := { x := 1, y := 1 }, rot := 0,
    visible := true, removed := false, parent := true, ref := 1 }

/-- The tail-append loop of `obs_scene_add` (obs-scene.c:407-416): walk to
the last node and hang the new item off it; an empty list makes the item
the first one. -/
def appendTail (l : List SItem) (it : SItem) : List SItem :=
  match l with
  | [] => [it]
  | x :: xs => x :: appendTail xs it

/-- The externally visible side effects of `obs_scene_add`, in program
order: `obs_source_addref`, `obs_source_add_child`, the list append under
the lock, then the `item_add` signal. -/
inductive AddEffect where
  | sourceAddref
  | addChild
  | appendNode
  | signalItemAdd
  deriving DecidableEq, Repr

/-- `obs_scene_add` (obs-scene.c:381-427).  A NULL scene returns NULL; a
NULL source logs an error and returns NULL with the scene untouched;
otherwise the new item is appended at the tail and `item_add` is signalled
after the append.  Returns (scene after, created item, effect trace). -/
def obs_scene_add (sc : Option Scene) (src : Option Nat) :
    Option Scene × Option SItem × List AddEffect :=
  match sc with
  | none => (none, none, [])
  | some sc =>
    match src with
    | none => (some sc, none, [])
    | some src =>
      let item := newSceneItem src
      (some { items := appendTail sc.items item }, some item,
       [AddEffect.sourceAddref, AddEffect.addChild,
        AddEffect.appendNode, AddEffect.signalItemAdd])

theorem appendTail_eq_concat (l : List SItem) (it : SItem) :
    appendTail l it = l ++ [it] := by
  induction l with
  | nil => rfl
  | cons x xs ih => simp [appendTail, ih]

/-- C5: `obs_scene_add` on a non-NULL scene and source creates an item
with `visible = true`, `scale = (1,1)` and `ref = 1`, appends it at the
tail of the list, and signals `item_add` only after the append; a NULL
scene or NULL source yields NULL with no item created and the list
unchanged. -/
theorem obs_scene_add_spec (sc : Scene) (src : Nat) :
    (obs_scene_add (some sc) (some src)).1 =
      some { items := sc.items ++ [newSceneItem src] } ∧
    (obs_scene_add (some sc) (some src)).2.1 = some (newSceneItem src) ∧
    (newSceneItem src).visible = true ∧
    (newSceneItem src).scale = { x := 1, y := 1 } ∧
    (newSceneItem src).ref = 1 ∧
    (obs_scene_add (some sc) (some src)).2.2 =
      [AddEffect.sourceAddref, AddEffect.addChild,
       AddEffect.appendNode, AddEffect.signalItemAdd] ∧
    obs_scene_add none (some src) = (none, none, []) ∧
    obs_scene_add (some sc) none = (some sc, none, []) := by
  refine ⟨?_, rfl, rfl, rfl, rfl, rfl, rfl, rfl⟩
  simp [obs_scene_add, appendTail_eq_concat]

/-- The externally visible side effects of `obs_sceneitem_remove`, in
program order: `obs_source_remove_child`, the `item_remove` signal, the
unlink (`detach_sceneitem`), and the release of the reference the list
held. -/
inductive RemEffect where
  | removeChild
  | signalItemRemove
  | unlink
  | releaseRef
  deriving DecidableEq, Repr

/-- `obs_sceneitem_remove` (obs-scene.c:453-483).  NULL item: return.
Already-removed item: unlock and return with no effect.  Otherwise mark
removed, `assert(scene != NULL)` (a live item with a NULL parent would
crash: `none`), remove the child link, signal `item_remove`, detach (which
clears `parent`), and release once.  Returns the item state after the call
and the effect trace. -/
def obs_sceneitem_remove (it : Option SItem) :
    Option (Option SItem × List RemEffect) :=
  match it with
  | none => some (none, [])
  | some item =>
    if item.removed then some (some item, [])
    else if item.parent = false then none
    else
      some (some { item with removed := true, parent := false },
            [RemEffect.removeChild, RemEffect.signalItemRemove,
             RemEffect.unlink, RemEffect.releaseRef])

/-- C4: removing a linked item signals `item_remove` exactly once, unlinks
exactly once and releases the list reference exactly once; the second
remove of the same item sees the `removed` flag and has no effect, and
removing a NULL item is likewise a no-op. -/
theorem obs_sceneitem_remove_idempotent (item : SItem)
    (hp : item.parent = true) (hr : item.removed = false) :
    obs_sceneitem_remove (some item) =
      some (some { item with removed := true, parent := false },
            [RemEffect.removeChild, RemEffect.signalItemRemove,
             RemEffect.unlink, RemEffect.releaseRef]) ∧
    obs_sceneitem_remove (some { item with removed := true, parent := false }) =
      some (some { item with removed := true, parent := false },
            ([] : List RemEffect)) ∧
    obs_sceneitem_remove none = some (none, ([] : List RemEffect)) := by
  refine ⟨?_, ?_, rfl⟩
  · simp [obs_sceneitem_remove, hr, hp]
  · simp [obs_sceneitem_remove]

theorem obs_sceneitem_remove_idempotent_witness :
    (newSceneItem 7).parent = true ∧ (newSceneItem 7).removed = false ∧
    (obs_sceneitem_remove (some (newSceneItem 7)) =
      some (some { newSceneItem 7 with removed := true, parent := false },
            [RemEffect.removeChild, RemEffect.signalItemRemove,
             RemEffect.unlink, RemEffect.releaseRef]) ∧
     obs_sceneitem_remove
        (some { newSceneItem 7 with removed := true, parent := false }) =
      some (some { newSceneItem 7 with removed := true, parent := false },
            ([] : List RemEffect)) ∧
     obs_sceneitem_remove none = some (none, ([] : List RemEffect))) :=
  ⟨by decide, by decide,
   obs_sceneitem_remove_idempotent (newSceneItem 7) (by decide) (by decide)⟩

/-! ## Transform accessors (obs-scene.c:485-517, 555-576) -/

/-- `obs_sceneitem_setpos`: copy `pos` into a non-NULL item. -/
def obs_sceneitem_setpos : Option SItem → Vec2 → Option SItem
  | none, _ => none
  | some it, p => some { it with pos := p }

/-- `obs_sceneitem_setrot`: store `rot` into a non-NULL item. -/
def obs_sceneitem_setrot : Option SItem → Int → Option SItem
  | none, _ => none
  | some it, r => some { it with rot := r }

/-- `obs_sceneitem_setorigin`: copy `origin` into a non-NULL item. -/
def obs_sceneitem_setorigin : Option SItem → Vec2 → Option SItem
  | none, _ => none
  | some it, o => some { it with origin := o }

/-- `obs_sceneitem_setscale`: copy `scale` into a non-NULL item. -/
def obs_sceneitem_setscale : Option SItem → Vec2 → Option SItem
  | none, _ => none
  | some it, sc => some { it with scale := sc }

/-- `obs_sceneitem_getpos`: copy `pos` into the output vector, leaving it
untouched when the item is NULL (the second argument is the value the
output holds before the call). -/
def obs_sceneitem_getpos : Option SItem → Vec2 → Vec2
  | none, out => out
  | some it, _ => it.pos

/-- `obs_sceneitem_getrot`: `item ? item->rot : 0.0f`. -/
def obs_sceneitem_getrot : Option SItem → Int
  | none => 0
  | some it => it.rot

/-- `obs_sceneitem_getorigin`: copy `origin` into the output vector. -/
def obs_sceneitem_getorigin : Option SItem → Vec2 → Vec2
  | none, out => out
  | some it, _ => it.origin

/-- `obs_sceneitem_getscale`: copy `scale` into the output vector. -/
def obs_sceneitem_getscale : Option SItem → Vec2 → Vec2
  | none, out => out
  | some it, _ => it.scale

/-- `obs_sceneitem_getscene`: `item ? item->parent : NULL` (the parent
pointer itself may be NULL, modelled by the `parent` flag). -/
def obs_sceneitem_getscene : Option SItem → Option Unit
  | none => none
  | some it => if it.parent then some () else none

/-- `obs_sceneitem_getsource`: `item ? item->source : NULL`. -/
def obs_sceneitem_getsource : Option SItem → Option Nat
  | none => none
  | some it => some it.sid

/-- C10: every public transform accessor is inert on the NULL item: the
setters change nothing, the vector getters leave the output argument
untouched, `getrot` returns 0, and `getscene` and `getsource` return
NULL. -/
theorem null_item_accessors (p v : Vec2) (r : Int) :
    obs_sceneitem_setpos none p = none ∧
    obs_sceneitem_setrot none r = none ∧
    obs_sceneitem_setorigin none p = none ∧
    obs_sceneitem_setscale none p = none ∧
    obs_sceneitem_getpos none v = v ∧
    obs_sceneitem_getrot none = 0 ∧
    obs_sceneitem_getorigin none v = v ∧
    obs_sceneitem_getscale none v = v ∧
    obs_sceneitem_getscene none = none ∧
    obs_sceneitem_getsource none = none := by
  exact ⟨rfl, rfl, rfl, rfl, rfl, rfl, rfl, rfl, rfl, rfl⟩

/-! ## Render traversal (obs-scene.c:155-189) -/

/-- One operation issued to the graphics backend during the render walk. -/
inductive GfxOp where
  | push
  | translate (x y : Int)
  | scaleBy (x y : Int)
  | rotate (r : Int)
  | renderSource (sid : Nat)
  | pop
  deriving DecidableEq, Repr

/-- `scene_video_render` (obs-scene.c:155-189), walking the list from the
head.  When the source of the current item reports itself removed, the
successor is captured first, `obs_sceneitem_remove` drops the current node
from the list, and the walk continues from the captured successor.
Otherwise the matrix is pushed, the transform applied (translate by
origin, scale, rotate by the negated rotation, translate by the negated
position), the source rendered, and the matrix popped.  `srcRemoved` is
the collaborating `obs_source_removed` query.  Returns the item list after
the pass and the trace of graphics operations. -/
def scene_video_render (srcRemoved : Nat → Bool) :
    List SItem → List SItem × List GfxOp
  | [] => ([], [])
  | item :: rest =>
    if srcRemoved item.sid then
      scene_video_render srcRemoved rest
    else
      let out := scene_video_render srcRemoved rest
      (item :: out.1,
       GfxOp.push ::
       GfxOp.translate item.origin.x item.origin.y ::
       GfxOp.scaleBy item.scale.x item.scale.y ::
       GfxOp.rotate (-item.rot) ::
       GfxOp.translate (-item.pos.x) (-item.pos.y) ::
       GfxOp.renderSource item.sid ::
       GfxOp.pop :: out.2)

/-- The bracketed operation sequence the render pass issues for one
surviving item: push, translate by origin, scale, rotate by the negated
rotation, translate by the negated position, render the source, pop. -/
def itemRenderOps (item : SItem) : List GfxOp :=
  [GfxOp.push,
   GfxOp.translate item.origin.x item.origin.y,
   GfxOp.scaleBy item.scale.x item.scale.y,
   GfxOp.rotate (-item.rot),
   GfxOp.translate (-item.pos.x) (-item.pos.y),
   GfxOp.renderSource item.sid,
   GfxOp.pop]

/-- C8: after the render pass the list holds exactly the items whose
sources were not removed, in their original relative order, and the
graphics trace is the concatenation, in that same order, of one
push/transform/render/pop bracket per surviving item — so each surviving
source is rendered exactly once and removed items are dropped without
being rendered. -/
theorem scene_video_render_spec (rm : Nat → Bool) (items : List SItem) :
    (scene_video_render rm items).1 =
      items.filter (fun it => !(rm it.sid)) ∧
    (scene_video_render rm items).2 =
      ((items.filter (fun it => !(rm it.sid))).map itemRenderOps).flatten := by
  induction items with
  | nil => exact ⟨rfl, rfl⟩
  | cons item rest ih =>
    by_cases h : rm item.sid = true
    · simpa [scene_video_render, h, List.filter_cons] using ih
    · simp only [Bool.not_eq_true] at h
      simp [scene_video_render, h, List.filter_cons, itemRenderOps, ih.1, ih.2]

/-! ## Persistence (obs-scene.c:191-267) -/

/-- One element of the "items" record array: the fields `scene_save_item`
writes and `scene_load_item` reads. -/
structure ItemRecord where
  name    : Nat
  visible : Bool
  rot     : Int
  origin  : Vec2
  pos     : Vec2
  scale   : Vec2
  deriving DecidableEq, Repr

/-- `scene_save_item` (obs-scene.c:233-247): emit the record for one item,
the name taken from the source. -/
def scene_save_item (it : SItem) : ItemRecord :=
  { name := it.sid, visible := it.visible, rot := it.rot,
    origin := it.origin, pos := it.pos, scale := it.scale }

/-- The save walk of `scene_save` (obs-scene.c:255-263): push one record
per item, head to tail. -/
def scene_save_loop : List SItem → List ItemRecord
  | [] => []
  | it :: rest => scene_save_item it :: scene_save_loop rest

/-- `scene_save` (obs-scene.c:249-267): the record array, in paint order. -/
def scene_save (sc : Scene) : List ItemRecord :=
  scene_save_loop sc.items

/-- The field assignments of `scene_load_item` (obs-scene.c:205-209) onto
the freshly added item: `rot`, `visible`, `origin`, `pos`, `scale` from
the record. -/
def setItemFields (it : SItem) (r : ItemRecord) : SItem :=
  { it with rot := r.rot, visible := r.visible,
            origin := r.origin, pos := r.pos, scale := r.scale }

/-- `scene_load_item` (obs-scene.c:191-211): resolve the named source in
the registry `reg`; when unresolved, log one warning and skip the record;
otherwise perform the append of `obs_scene_add` and apply the record
fields to the new item.  Returns the scene and the number of warnings
logged (0 or 1). -/
def scene_load_item (reg : Nat → Option Nat) (sc : Scene) (r : ItemRecord) :
    Scene × Nat :=
  match reg r.name with
  | none => (sc, 1)
  | some src =>
    ({ items := appendTail sc.items (setItemFields (newSceneItem src) r) }, 0)

/-- The record loop of `scene_load` (obs-scene.c:224-228). -/
def scene_load_loop (reg : Nat → Option Nat) :
    Scene → List ItemRecord → Scene × Nat
  | sc, [] => (sc, 0)
  | sc, r :: rs =>
    let step := scene_load_item reg sc r
    let rest := scene_load_loop reg step.1 rs
    (rest.1, step.2 + rest.2)

/-- `remove_all_items` (obs-scene.c:74-90): remove each item in turn. -/
def remove_all_items : List SItem → List SItem
  | [] => []
  | _ :: rest => remove_all_items rest

/-- `scene_load` (obs-scene.c:213-231): remove every existing item first,
then — if the settings carry an "items" array at all — load each record in
order.  Returns the scene and the number of warnings logged. -/
def scene_load (reg : Nat → Option Nat) (sc : Scene)
    (settings : Option (List ItemRecord)) : Scene × Nat :=
  let sc0 : Scene := { items := remove_all_items sc.items }
  match settings with
  | none => (sc0, 0)
  | some rs => scene_load_loop reg sc0 rs

theorem remove_all_items_eq_nil (l : List SItem) : remove_all_items l = [] := by
  induction l with
  | nil => rfl
  | cons x xs ih => simpa [remove_all_items] using ih

/-- The transform data the round-trip claim compares: rotation,
visibility, origin, position and scale. -/
def transformOf (it : SItem) : Int × Bool × Vec2 × Vec2 × Vec2 :=
  (it.rot, it.visible, it.origin, it.pos, it.scale)

theorem scene_load_loop_items (reg : Nat → Option Nat)
    (rs : List ItemRecord) : ∀ acc : Scene,
    (scene_load_loop reg acc rs).1.items =
      acc.items ++ rs.filterMap
        (fun r => (reg r.name).map (fun src => setItemFields (newSceneItem src) r)) ∧
    (scene_load_loop reg acc rs).2 =
      (rs.filter (fun r => (reg r.name).isNone)).length := by
  induction rs with
  | nil => intro acc; simp [scene_load_loop]
  | cons r rs ih =>
    intro acc
    rcases h : reg r.name with _ | src
    · have h2 := ih acc
      refine ⟨?_, ?_⟩
      · simp [scene_load_loop, scene_load_item, h, List.filterMap_cons, h2.1]
      · simp [scene_load_loop, scene_load_item, h, List.filter_cons, h2.2,
              Nat.add_comm]
    · have h2 := ih { items := appendTail acc.items (setItemFields (newSceneItem src) r) }
      rw [appendTail_eq_concat] at h2
      refine ⟨?_, ?_⟩
      · simp [scene_load_loop, scene_load_item, h, List.filterMap_cons,
              appendTail_eq_concat, h2.1]
      · simp [scene_load_loop, scene_load_item, h, List.filter_cons,
              appendTail_eq_concat, h2.2]

/-- C7: loading a record array first empties the scene, then adds exactly
one item per record whose source resolves, in the relative order of the
records, and logs one warning per unresolvable record without aborting —
so with at least one unresolvable record the load still succeeds on the
rest and at least one warning is logged. -/
theorem scene_load_partial (reg : Nat → Option Nat) (sc2 : Scene)
    (rs : List ItemRecord) (h : ∃ r ∈ rs, reg r.name = none) :
    (scene_load reg sc2 (some rs)).1.items =
      rs.filterMap
        (fun r => (reg r.name).map (fun src => setItemFields (newSceneItem src) r)) ∧
    (scene_load reg sc2 (some rs)).2 =
      (rs.filter (fun r => (reg r.name).isNone)).length ∧
    1 ≤ (scene_load reg sc2 (some rs)).2 := by
  have base := scene_load_loop_items reg rs { items := remove_all_items sc2.items }
  have hitems : (scene_load reg sc2 (some rs)).1.items =
      rs.filterMap
        (fun r => (reg r.name).map (fun src => setItemFields (newSceneItem src) r)) := by
    simpa [scene_load, remove_all_items_eq_nil] using base.1
  have hwarn : (scene_load reg sc2 (some rs)).2 =
      (rs.filter (fun r => (reg r.name).isNone)).length := by
    simpa [scene_load] using base.2
  refine ⟨hitems, hwarn, ?_⟩
  rcases h with ⟨r, hr, hnone⟩
  have hmem : r ∈ rs.filter (fun r => (reg r.name).isNone) := by
    simp [List.mem_filter, hr, hnone]
  have hlen : 1 ≤ (rs.filter (fun r => (reg r.name).isNone)).length :=
    List.length_pos.mpr (List.ne_nil_of_mem hmem)
  omega

/-- A concrete record for the C7 witness. -/
def mkRecord (n : Nat) : ItemRecord :=
  { name := n, visible := true, rot := Int.ofNat n,
    origin := { x := 0, y := 0 }, pos := { x := Int.ofNat n, y := 0 },
    scale := { x := 1, y := 1 } }

theorem scene_load_partial_witness :
    (∃ r ∈ [mkRecord 1, mkRecord 2, mkRecord 3],
        (fun n => if n = 2 then none else some n) r.name = none) ∧
    ((scene_load (fun n => if n = 2 then none else some n)
        { items := [newSceneItem 9] }
        (some [mkRecord 1, mkRecord 2, mkRecord 3])).1.items =
      [mkRecord 1, mkRecord 2, mkRecord 3].filterMap
        (fun r => ((fun n => if n = 2 then none else some n) r.name).map
          (fun src => setItemFields (newSceneItem src) r)) ∧
     (scene_load (fun n => if n = 2 then none else some n)
        { items := [newSceneItem 9] }
        (some [mkRecord 1, mkRecord 2, mkRecord 3])).2 =
      ([mkRecord 1, mkRecord 2, mkRecord 3].filter
        (fun r => ((fun n => if n = 2 then none else some n) r.name).isNone)).length ∧
     1 ≤ (scene_load (fun n => if n = 2 then none else some n)
        { items := [newSceneItem 9] }
        (some [mkRecord 1, mkRecord 2, mkRecord 3])).2) :=
  ⟨by decide,
   scene_load_partial (fun n => if n = 2 then none else some n)
     { items := [newSceneItem 9] }
     [mkRecord 1, mkRecord 2, mkRecord 3] (by decide)⟩

theorem scene_load_loop_save (reg : Nat → Option Nat) (items : List SItem) :
    ∀ acc : Scene, (∀ it ∈ items, (reg it.sid).isSome) →
    ((scene_load_loop reg acc (scene_save_loop items)).1.items.map transformOf =
      acc.items.map transformOf ++ items.map transformOf) := by
  induction items with
  | nil => intro acc _; simp [scene_save_loop, scene_load_loop]
  | cons it rest ih =>
    intro acc h
    have hhead : (reg it.sid).isSome := h it (by simp)
    rcases hsrc : reg it.sid with _ | src
    · rw [hsrc] at hhead; simp at hhead
    · have htail : ∀ x ∈ rest, (reg x.sid).isSome := fun x hx => h x (by simp [hx])
      have h2 := ih
        { items := appendTail acc.items (setItemFields (newSceneItem src) (scene_save_item it)) }
        htail
      rw [appendTail_eq_concat] at h2
      have hx : transformOf (setItemFields (newSceneItem src) (scene_save_item it)) =
          transformOf it := by
        simp [transformOf, setItemFields, newSceneItem, scene_save_item]
      have hname : (scene_save_item it).name = it.sid := rfl
      simp [scene_save_loop, scene_load_loop, scene_load_item, hname,
            hsrc, appendTail_eq_concat, h2, hx]

/-- C6: saving a scene whose sources all resolve by name and loading the
records into another scene reproduces the item count, the paint order and
every transform (rotation, visibility, origin, position, scale) of the
original items. -/
theorem scene_save_load_roundtrip (reg : Nat → Option Nat) (sc sc2 : Scene)
    (h : ∀ it ∈ sc.items, (reg it.sid).isSome) :
    (scene_load reg sc2 (some (scene_save sc))).1.items.map transformOf =
      sc.items.map transformOf := by
  have base := scene_load_loop_save reg sc.items
    { items := remove_all_items sc2.items } h
  simpa [scene_load, scene_save, remove_all_items_eq_nil] using base

/-- A first concrete item for the round-trip witness. -/
def witItemA : SItem :=
  { sid := 1, pos := { x := 2, y := 3 }, origin := { x := 4, y := 5 },
    scale := { x := 6, y := 7 }, rot := 8,
    visible := true, removed := false, parent := true, ref := 1 }

/-- A second concrete item for the round-trip witness. -/
def witItemB : SItem :=
  { sid := 2, pos := { x := -1, y := 0 }, origin := { x := 0, y := 2 },
    scale := { x := 3, y := 4 }, rot := -5,
    visible := false, removed := false, parent := true, ref := 1 }

theorem scene_save_load_roundtrip_witness :
    (∀ it ∈ ({ items := [witItemA, witItemB] } : Scene).items,
        ((fun n => some n) it.sid).isSome) ∧
    (scene_load (fun n => some n) { items := [newSceneItem 5] }
        (some (scene_save { items := [witItemA, witItemB] }))).1.items.map transformOf =
      ({ items := [witItemA, witItemB] } : Scene).items.map transformOf :=
  ⟨by decide,
   scene_save_load_roundtrip (fun n => some n)
     { items := [witItemA, witItemB] } { items := [newSceneItem 5] } (by decide)⟩

/-! ## Item reference counting (obs-scene.c:429-451)

`obs_sceneitem_addref` atomically increments `item->ref`;
`obs_sceneitem_release` atomically decrements it and calls
`obs_sceneitem_destroy` — which releases the owned source reference and
frees the node — exactly when the decremented value is zero. -/

/-- One reference-counting call on an item. -/
inductive RefOp where
  | addref
  | release
  deriving DecidableEq, Repr

/-- The addref calls in a call sequence. -/
def countAddref : List RefOp → Nat
  | [] => 0
  | RefOp.addref :: l => countAddref l + 1
  | RefOp.release :: l => countAddref l

/-- The release calls in a call sequence. -/
def countRelease : List RefOp → Nat
  | [] => 0
  | RefOp.addref :: l => countRelease l
  | RefOp.release :: l => countRelease l + 1

/-- Run a sequence of `obs_sceneitem_addref` / `obs_sceneitem_release`
calls against a counter, returning the final counter value and the number
of `obs_sceneitem_destroy` invocations.  Destruction fires exactly when a
release decrements the counter to zero; the run keeps counting afterwards,
mirroring the freed memory the C code would keep touching if callers kept
calling. -/
def refRun : Int → List RefOp → Int × Nat
  | r, [] => (r, 0)
  | r, RefOp.addref :: ops => refRun (r + 1) ops
  | r, RefOp.release :: ops =>
    let rest := refRun (r - 1) ops
    if r - 1 = 0 then (rest.1, rest.2 + 1) else rest

theorem refRun_addref (r : Int) (l : List RefOp) :
    refRun r (RefOp.addref :: l) = refRun (r + 1) l := rfl

theorem refRun_release_ne (r : Int) (l : List RefOp) (h : r - 1 ≠ 0) :
    refRun r (RefOp.release :: l) = refRun (r - 1) l := by
  simp [refRun, h]

theorem refRun_release_fst (r : Int) (l : List RefOp) :
    (refRun r (RefOp.release :: l)).1 = (refRun (r - 1) l).1 := by
  by_cases h : r - 1 = 0 <;> simp [refRun, h]

theorem refRun_fst (ops : List RefOp) : ∀ r : Int,
    (refRun r ops).1 = r + countAddref ops - countRelease ops := by
  induction ops with
  | nil => intro r; simp [refRun, countAddref, countRelease]
  | cons op ops ih =>
    intro r
    cases op with
    | addref =>
      rw [refRun_addref, ih]
      simp [countAddref, countRelease]
      ring
    | release =>
      rw [refRun_release_fst, ih]
      simp [countAddref, countRelease]
      ring

theorem refRun_destroys (ops : List RefOp) : ∀ r : Int, ops ≠ [] →
    r + countAddref ops = countRelease ops →
    (∀ i, i < ops.length → 0 < (refRun r (List.take i ops)).1) →
    (refRun r ops).2 = 1 ∧
      ∀ i, i < ops.length → (refRun r (List.take i ops)).2 = 0 := by
  induction ops with
  | nil => intro r hne _ _; exact absurd rfl hne
  | cons op rest ih =>
    intro r _ htot hpre
    cases op with
    | addref =>
      rcases eq_or_ne rest [] with hrest | hrest
      · subst hrest
        have h0 := hpre 0 (by simp)
        simp [refRun, countAddref, countRelease] at htot h0
        omega
      · have htot2 : (r + 1) + (countAddref rest : Int) = countRelease rest := by
          simp [countAddref, countRelease] at htot
          omega
        have hpre2 : ∀ i, i < rest.length → 0 < (refRun (r + 1) (List.take i rest)).1 := by
          intro i hi
          have hs := hpre (i + 1) (by simpa using Nat.succ_lt_succ hi)
          simpa [List.take_succ_cons, refRun_addref] using hs
        have hmain := ih (r + 1) hrest htot2 hpre2
        refine ⟨by simpa [refRun_addref] using hmain.1, ?_⟩
        intro i hi
        cases i with
        | zero => simp [refRun]
        | succ j =>
          have hj : j < rest.length := by simpa using Nat.lt_of_succ_lt_succ hi
          simpa [List.take_succ_cons, refRun_addref] using hmain.2 j hj
    | release =>
      rcases eq_or_ne rest [] with hrest | hrest
      · subst hrest
        have hr1 : r = 1 := by
          simp [countAddref, countRelease] at htot
          omega
        subst hr1
        refine ⟨by simp [refRun], ?_⟩
        intro i hi
        have hi0 : i = 0 := by simpa using Nat.lt_one_iff.mp (by simpa using hi)
        subst hi0
        simp [refRun]
      · have hlen : 1 < (RefOp.release :: rest).length := by
          have := List.length_pos.mpr hrest
          simp
          omega
        have hone := hpre 1 hlen
        have hone2 : 0 < r - 1 := by
          have ht1 : List.take 1 (RefOp.release :: rest) = [RefOp.release] := by
            simp [List.take_succ_cons]
          rw [ht1, refRun_release_fst] at hone
          simpa [refRun] using hone
        have hne1 : r - 1 ≠ 0 := by omega
        have htot2 : (r - 1) + (countAddref rest : Int) = countRelease rest := by
          simp [countAddref, countRelease] at htot
          omega
        have hpre2 : ∀ i, i < rest.length → 0 < (refRun (r - 1) (List.take i rest)).1 := by
          intro i hi
          have hs := hpre (i + 1) (by simpa using Nat.succ_lt_succ hi)
          simpa [List.take_succ_cons, refRun_release_ne _ _ hne1] using hs
        have hmain := ih (r - 1) hrest htot2 hpre2
        refine ⟨by simpa [refRun_release_ne _ _ hne1] using hmain.1, ?_⟩
        intro i hi
        cases i with
        | zero => simp [refRun]
        | succ j =>
          have hj : j < rest.length := by simpa using Nat.lt_of_succ_lt_succ hi
          simpa [List.take_succ_cons, refRun_release_ne _ _ hne1] using hmain.2 j hj

/-- C9 counterexample: the interleaving release, addref, release of M = 1
addref calls and M + 1 = 2 release calls never drops the counter below
zero (the counter after each step is 1, 0, 1, 0), yet the item is
destroyed already by the first release — not only on the final one — and
the destroy routine runs twice over the whole sequence instead of exactly
once. -/
theorem refcount_claim_counterexample :
    countAddref [RefOp.release, RefOp.addref, RefOp.release] = 1 ∧
    countRelease [RefOp.release, RefOp.addref, RefOp.release] = 1 + 1 ∧
    (refRun 1 (List.take 0 [RefOp.release, RefOp.addref, RefOp.release])).1 = 1 ∧
    (refRun 1 (List.take 1 [RefOp.release, RefOp.addref, RefOp.release])).1 = 0 ∧
    (refRun 1 (List.take 2 [RefOp.release, RefOp.addref, RefOp.release])).1 = 1 ∧
    (refRun 1 [RefOp.release, RefOp.addref, RefOp.release]).1 = 0 ∧
    (refRun 1 (List.take 1 [RefOp.release, RefOp.addref, RefOp.release])).2 = 1 ∧
    (refRun 1 [RefOp.release, RefOp.addref, RefOp.release]).2 = 2 := by
  decide

/-- C9 (amended): for an item created with one reference, any interleaving
of M addref calls and M + 1 release calls in which every proper prefix
leaves the counter strictly positive ends with the counter at zero,
destroys the item exactly once, and no proper prefix — hence no release
before the final one — destroys it. -/
theorem obs_sceneitem_refcount_once (M : Nat) (ops : List RefOp)
    (ha : countAddref ops = M) (hr : countRelease ops = M + 1)
    (hpos : ∀ i, i < ops.length → 0 < (refRun 1 (List.take i ops)).1) :
    (refRun 1 ops).1 = 0 ∧ (refRun 1 ops).2 = 1 ∧
      ∀ i, i < ops.length → (refRun 1 (List.take i ops)).2 = 0 := by
  have hne : ops ≠ [] := by
    intro hnil
    subst hnil
    simp [countRelease] at hr
  have htot : (1 : Int) + countAddref ops = countRelease ops := by
    rw [ha, hr]
    push_cast
    ring
  have hmain := refRun_destroys ops 1 hne htot hpos
  refine ⟨?_, hmain.1, hmain.2⟩
  rw [refRun_fst, ha, hr]
  push_cast
  ring

theorem obs_sceneitem_refcount_once_witness :
    countAddref [RefOp.addref, RefOp.release, RefOp.release] = 1 ∧
    countRelease [RefOp.addref, RefOp.release, RefOp.release] = 1 + 1 ∧
    (refRun 1 [RefOp.addref, RefOp.release, RefOp.release]).1 = 0 ∧
    (refRun 1 [RefOp.addref, RefOp.release, RefOp.release]).2 = 1 ∧
    (refRun 1 (List.take 1 [RefOp.addref, RefOp.release, RefOp.release])).2 = 0 :=
  ⟨by decide, by decide,
   (obs_sceneitem_refcount_once 1 [RefOp.addref, RefOp.release, RefOp.release]
     (by decide) (by decide) (by decide)).1,
   (obs_sceneitem_refcount_once 1 [RefOp.addref, RefOp.release, RefOp.release]
     (by decide) (by decide) (by decide)).2.1,
   (obs_sceneitem_refcount_once 1 [RefOp.addref, RefOp.release, RefOp.release]
     (by decide) (by decide) (by decide)).2.2 1 (by decide)⟩
